import Mathlib

/-!
# MarkMyWords: a shallow embedding of `MarkMyWordsApp`

The React component of `src/MarkMyWords.jsx` (and its shorter sibling
`src/src/MarkMyWords.jsx`) is embedded as a record of its `useState` cells and
one function per handler.  Conventions of the embedding:

* a handler is a function `AppState → AppState`; it reads the cells of the render
  in which it was created (its argument) and the result is the state committed
  after the updates it enqueued have been applied;
* `Date.now()` is an explicit argument `now : Nat` of the handlers that read it;
* `canvasRef.current` together with the rectangle its `getBoundingClientRect()`
  returns is an explicit argument `canvas : Option Rect` (`none` is a null ref);
* pointer coordinates are integers;
* `alert(...)` and the canvas strokes are recorded in the output logs `alerts`
  and `strokes`;
* the `localforage` slot under `STORAGE_KEY` is the cell `store`; the effect
  `useEffect(() => localforage.setItem(STORAGE_KEY, db), [db])` is folded into
  `setDb`, writes taking effect in the order they are issued.
-/

namespace MarkMyWords

/-! ## Data model -/

/-- A point `{ x, y }` of a path. -/
structure Point where
  x : Int
  y : Int
deriving DecidableEq, Repr

/-- The part of `getBoundingClientRect()` the handlers read. -/
structure Rect where
  left : Int
  top : Int
deriving DecidableEq, Repr

/-- The part of a mouse event the handlers read. -/
structure MouseEvent where
  clientX : Int
  clientY : Int
deriving DecidableEq, Repr

/-- Record `{ id, username, password }`. -/
structure User where
  id : Nat
  username : String
  password : String
deriving DecidableEq, Repr

/-- Record `{ id, name }`. -/
structure Grade where
  id : Nat
  name : String
deriving DecidableEq, Repr

/-- Record `{ id, gradeId, name }`. -/
structure Class where
  id : Nat
  gradeId : Nat
  name : String
deriving DecidableEq, Repr

/-- Record `{ id, classId, name }`. -/
structure Learner where
  id : Nat
  classId : Nat
  name : String
deriving DecidableEq, Repr

/-- Record `{ id, learnerId, title, fileUrl, status, totalMarks, createdAt }`. -/
structure Task where
  id : Nat
  learnerId : Nat
  title : String
  fileUrl : String
  status : String
  totalMarks : Option Nat
  createdAt : String
deriving DecidableEq, Repr

/-- Record `{ id, taskId, path }`. -/
structure Annotation where
  id : Nat
  taskId : Nat
  path : List Point
deriving DecidableEq, Repr

/-- The document held in `db` and persisted under `STORAGE_KEY`. -/
structure Document where
  users : List User
  grades : List Grade
  classes : List Class
  learners : List Learner
  tasks : List Task
  annotations : List Annotation
deriving DecidableEq, Repr

/-- One `moveTo`/`lineTo`/`stroke` of `drawing` on the canvas context. -/
structure Stroke where
  strokeStyle : String
  lineWidth : Nat
  src : Point
  dst : Point
deriving DecidableEq, Repr

/-- A `FileReader` started by `createTaskForLearner` whose `onload` has not fired:
the variables its closure captured. -/
structure PendingRead where
  id : Nat
  learnerId : Nat
  title : String
deriving DecidableEq, Repr

/-- The `useState` cells of `MarkMyWordsApp`, the store slot, the pending file
reads and the two output logs. -/
structure AppState where
  user : Option User
  usernameInput : String
  passwordInput : String
  dark : Bool
  db : Document
  selectedGradeId : Option Nat
  selectedClassId : Option Nat
  selectedLearnerId : Option Nat
  selectedTaskId : Option Nat
  tool : String
  colour : String
  isDrawing : Bool
  currentPath : List Point
  store : Option Document
  readers : List PendingRead
  alerts : List String
  strokes : List Stroke
deriving DecidableEq, Repr

/-- The argument of `useState` for `db` (lines 16-23). -/
def emptyDb : Document :=
  { users := [], grades := [], classes := [], learners := [], tasks := [], annotations := [] }

/-- The object `initial` built by `loadDB` (lines 41-48). -/
def initial : Document :=
  { users := [{ id := 1, username := "Dylan", password := "54852" }],
    grades := [], classes := [], learners := [], tasks := [], annotations := [] }

/-- The state of the first render: every `useState` default, with the store slot
holding `store`. -/
def initialState (store : Option Document) : AppState :=
  { user := none, usernameInput := "", passwordInput := "", dark := true, db := emptyDb,
    selectedGradeId := none, selectedClassId := none, selectedLearnerId := none,
    selectedTaskId := none, tool := "pen", colour := "red", isDrawing := false,
    currentPath := [], store := store, readers := [], alerts := [], strokes := [] }

/-! ## Persistence -/

/-- The call `setDb(f)` followed by the persist effect of lines 57-59, which writes the
new `db` under `STORAGE_KEY`. -/
def setDb (f : Document → Document) (s : AppState) : AppState :=
  { s with db := f s.db, store := some (f s.db) }

/-- The body of `loadDB` (lines 37-52) from the point where
`await localforage.getItem(STORAGE_KEY)` has produced `stored`. -/
def loadDB (stored : Option Document) (s : AppState) : AppState :=
  match stored with
  | some d => setDb (fun _ => d) s
  | none => setDb (fun _ => initial) { s with store := some initial }

/-- The persist effect (lines 57-59) as it runs after a render whose document is `s.db`. -/
def persist (s : AppState) : AppState :=
  { s with store := some s.db }

/-- The two effects of the first render, in source order: `loadDB()` issues its `getItem`,
which reads the slot as it was before the render; the persist effect then writes the
`useState` default of `db`; `loadDB` resumes with what `getItem` read. -/
def mount (store : Option Document) : AppState :=
  let s0 := initialState store
  let stored := s0.store
  loadDB stored (persist s0)

/-! ## Login / logout -/

/-- The handler `handleLogin` (lines 66-76). -/
def handleLogin (s : AppState) : AppState :=
  match s.db.users.find? (fun u => u.username == s.usernameInput && u.password == s.passwordInput) with
  | some found => { s with user := some found, usernameInput := "", passwordInput := "" }
  | none => { s with alerts := s.alerts ++ ["Invalid credentials"] }

/-- The handler `handleLogout` (line 78). -/
def handleLogout (s : AppState) : AppState :=
  { s with user := none }

/-! ## CRUD functions -/

/-- The function `createGrade` (lines 81-85): the returned id and the next state. -/
def createGrade (now : Nat) (name : String) (s : AppState) : Nat × AppState :=
  (now, setDb (fun prev => { prev with grades := prev.grades ++ [{ id := now, name := name }] }) s)

/-- The function `createClass` (lines 86-93). -/
def createClass (now : Nat) (gradeId : Nat) (name : String) (s : AppState) : Nat × AppState :=
  (now, setDb (fun prev =>
    { prev with classes := prev.classes ++ [{ id := now, gradeId := gradeId, name := name }] }) s)

/-- The function `createLearner` (lines 94-101). -/
def createLearner (now : Nat) (classId : Nat) (name : String) (s : AppState) : Nat × AppState :=
  (now, setDb (fun prev =>
    { prev with learners := prev.learners ++ [{ id := now, classId := classId, name := name }] }) s)

/-- The body of `reader.onload` inside `createTaskForLearner` (lines 106-119), with the
captured `id`, `learnerId`, `title`; `fileUrl` is `ev.target.result` and `createdAt` is
`new Date().toISOString()`. -/
def taskLoaded (id learnerId : Nat) (title fileUrl createdAt : String) (s : AppState) : AppState :=
  let task : Task :=
    { id := id, learnerId := learnerId, title := title, fileUrl := fileUrl,
      status := "in-progress", totalMarks := none, createdAt := createdAt }
  { setDb (fun prev => { prev with tasks := prev.tasks ++ [task] }) s with selectedTaskId := some id }

/-- The synchronous part of `createTaskForLearner` (lines 103-105 and 120): it reads the
clock and starts a file read. -/
def createTaskForLearner (now : Nat) (learnerId : Nat) (title : String) (s : AppState) : AppState :=
  { s with readers := s.readers ++ [{ id := now, learnerId := learnerId, title := title }] }

/-- The `onload` event of the `k`-th pending file read. -/
def onload (k : Nat) (fileUrl createdAt : String) (s : AppState) : AppState :=
  match s.readers.get? k with
  | some r => taskLoaded r.id r.learnerId r.title fileUrl createdAt { s with readers := s.readers.eraseIdx k }
  | none => s

/-- The function `saveAnnotation` (lines 123-128). -/
def saveAnnotation (now : Nat) (taskId : Nat) (path : List Point) (s : AppState) : AppState :=
  setDb (fun prev =>
    { prev with annotations := prev.annotations ++ [{ id := now, taskId := taskId, path := path }] }) s

/-- The function `getAnnotationsForTask` (lines 130-131). -/
def getAnnotationsForTask (taskId : Nat) (s : AppState) : List Annotation :=
  s.db.annotations.filter (fun a => a.taskId == taskId)

/-! ## Canvas drawing -/

/-- JavaScript truthiness of a cell holding `null` or a number. -/
def truthy : Option Nat → Bool
  | none => false
  | some n => n != 0

/-- The point `{ x: e.clientX - rect.left, y: e.clientY - rect.top }`. -/
def localPoint (rect : Rect) (e : MouseEvent) : Point :=
  { x := e.clientX - rect.left, y := e.clientY - rect.top }

/-- The handler `startDraw` (lines 134-141). -/
def startDraw (canvas : Option Rect) (e : MouseEvent) (s : AppState) : AppState :=
  match canvas with
  | none => s
  | some rect => { s with isDrawing := true, currentPath := [localPoint rect e] }

/-- The handler `drawing` (lines 143-157). -/
def drawing (canvas : Option Rect) (e : MouseEvent) (s : AppState) : AppState :=
  match canvas with
  | none => s
  | some rect =>
    if !s.isDrawing then s
    else
      let q := localPoint rect e
      let p := (s.currentPath.getLast?).getD q
      { s with
        currentPath := s.currentPath ++ [q],
        strokes := s.strokes ++ [{ strokeStyle := s.colour, lineWidth := 2, src := p, dst := q }] }

/-- The handler `endDraw` (lines 159-163). -/
def endDraw (now : Nat) (s : AppState) : AppState :=
  let s1 := { s with isDrawing := false }
  let s2 :=
    if truthy s.selectedTaskId && s.currentPath.length != 0 then
      saveAnnotation now (s.selectedTaskId.getD 0) s.currentPath s1
    else s1
  { s2 with currentPath := [] }

/-! ## Events wired to the rendered UI (lines 166-246) -/

/-- The events the rendered markup binds a handler to: the login form's submit and its
two inputs, the logout button, the theme button, the colour selector, and the four mouse
events of the canvas.  The canvas events carry what `canvasRef.current` holds when they
fire, `mouseUp` and `mouseLeave` the clock value `endDraw` would read. -/
inductive UIEvent where
  | submit
  | usernameChange (value : String)
  | passwordChange (value : String)
  | logout
  | toggleTheme
  | colourChange (value : String)
  | mouseDown (canvas : Option Rect) (e : MouseEvent)
  | mouseMove (canvas : Option Rect) (e : MouseEvent)
  | mouseUp (now : Nat)
  | mouseLeave (now : Nat)
deriving DecidableEq, Repr

/-- The handler bound to each UI event in `src/MarkMyWords.jsx`. -/
def step (ev : UIEvent) (s : AppState) : AppState :=
  match ev with
  | UIEvent.submit => handleLogin s
  | UIEvent.usernameChange v => { s with usernameInput := v }
  | UIEvent.passwordChange v => { s with passwordInput := v }
  | UIEvent.logout => handleLogout s
  | UIEvent.toggleTheme => { s with dark := !s.dark }
  | UIEvent.colourChange v => { s with colour := v }
  | UIEvent.mouseDown canvas e => startDraw canvas e s
  | UIEvent.mouseMove canvas e => drawing canvas e s
  | UIEvent.mouseUp now => endDraw now s
  | UIEvent.mouseLeave now => endDraw now s

/-- The state after a sequence of UI events, each handled in the render that follows the
previous one. -/
def runUI (evs : List UIEvent) (s : AppState) : AppState :=
  evs.foldl (fun acc ev => step ev acc) s

/-! ## The shorter sibling `src/src/MarkMyWords.jsx`

Its `handleLogout`, `saveAnnotation` and `endDraw` are the same text as above and are
shared; the cells it does not declare are never touched.  A result `none` stands for a
`TypeError` raised while rendering, after which nothing is rendered any more. -/

namespace Minimal

/-- The handler `handleLogin` (lines 44-49 of the sibling): the inputs are not cleared. -/
def handleLogin (s : AppState) : AppState :=
  match s.db.users.find? (fun u => u.username == s.usernameInput && u.password == s.passwordInput) with
  | some found => { s with user := some found }
  | none => { s with alerts := s.alerts ++ ["Invalid credentials"] }

/-- The handler `startDraw` (lines 57-61 of the sibling): `setIsDrawing(true)` comes
before the unguarded read of `canvasRef.current`, which throws on a null ref. -/
def startDraw (canvas : Option Rect) (e : MouseEvent) (s : AppState) : AppState :=
  match canvas with
  | none => { s with isDrawing := true }
  | some rect => { s with isDrawing := true, currentPath := [localPoint rect e] }

/-- The handler `drawing` (lines 63-79 of the sibling): the stroke is drawn inside the
updater of `setCurrentPath`, from `prev[prev.length - 1]`, which is undefined for an
empty `prev`. -/
def drawing (canvas : Option Rect) (e : MouseEvent) (s : AppState) : Option AppState :=
  if !s.isDrawing then some s
  else
    match canvas with
    | none => some s
    | some rect =>
      let q := localPoint rect e
      match s.currentPath.getLast? with
      | none => none
      | some p =>
        some { s with
          currentPath := s.currentPath ++ [q],
          strokes := s.strokes ++ [{ strokeStyle := s.colour, lineWidth := 2, src := p, dst := q }] }

/-- The handler bound to each UI event in the sibling. -/
def step (ev : UIEvent) (s : AppState) : Option AppState :=
  match ev with
  | UIEvent.submit => some (handleLogin s)
  | UIEvent.usernameChange v => some { s with usernameInput := v }
  | UIEvent.passwordChange v => some { s with passwordInput := v }
  | UIEvent.logout => some (handleLogout s)
  | UIEvent.toggleTheme => some { s with dark := !s.dark }
  | UIEvent.colourChange v => some { s with colour := v }
  | UIEvent.mouseDown canvas e => some (startDraw canvas e s)
  | UIEvent.mouseMove canvas e => drawing canvas e s
  | UIEvent.mouseUp now => some (endDraw now s)
  | UIEvent.mouseLeave now => some (endDraw now s)

/-- The state after a sequence of UI events of the sibling, `none` once rendering has
failed. -/
def runUI : List UIEvent → AppState → Option AppState
  | [], s => some s
  | ev :: evs, s => (step ev s).bind (runUI evs)

end Minimal

/-! ## Sequences of creations -/

/-- One creation step: a call of a creation function with the clock value it reads, or
the `onload` of a pending file read. -/
inductive Op where
  | createGrade (now : Nat) (name : String)
  | createClass (now : Nat) (gradeId : Nat) (name : String)
  | createLearner (now : Nat) (classId : Nat) (name : String)
  | createTaskForLearner (now : Nat) (learnerId : Nat) (title : String)
  | onload (k : Nat) (fileUrl createdAt : String)
  | saveAnnotation (now : Nat) (taskId : Nat) (path : List Point)
deriving DecidableEq, Repr

/-- The state after one creation step. -/
def Op.apply (op : Op) (s : AppState) : AppState :=
  match op with
  | Op.createGrade now name => (MarkMyWords.createGrade now name s).2
  | Op.createClass now gradeId name => (MarkMyWords.createClass now gradeId name s).2
  | Op.createLearner now classId name => (MarkMyWords.createLearner now classId name s).2
  | Op.createTaskForLearner now learnerId title => MarkMyWords.createTaskForLearner now learnerId title s
  | Op.onload k fileUrl createdAt => MarkMyWords.onload k fileUrl createdAt s
  | Op.saveAnnotation now taskId path => MarkMyWords.saveAnnotation now taskId path s

/-- The clock value a creation step reads for an id (`onload` reads none). -/
def Op.clock : Op → Option Nat
  | Op.createGrade now _ => some now
  | Op.createClass now _ _ => some now
  | Op.createLearner now _ _ => some now
  | Op.createTaskForLearner now _ _ => some now
  | Op.onload _ _ _ => none
  | Op.saveAnnotation now _ _ => some now

/-- The clock value read by a `createGrade` step. -/
def Op.gradeClock : Op → Option Nat
  | Op.createGrade now _ => some now
  | _ => none

/-- The clock value read by a `createClass` step. -/
def Op.classClock : Op → Option Nat
  | Op.createClass now _ _ => some now
  | _ => none

/-- The clock value read by a `createLearner` step. -/
def Op.learnerClock : Op → Option Nat
  | Op.createLearner now _ _ => some now
  | _ => none

/-- The clock value read by a `createTaskForLearner` step. -/
def Op.taskClock : Op → Option Nat
  | Op.createTaskForLearner now _ _ => some now
  | _ => none

/-- The clock value read by a `saveAnnotation` step. -/
def Op.annotationClock : Op → Option Nat
  | Op.saveAnnotation now _ _ => some now
  | _ => none

/-- The state after a sequence of creation steps. -/
def runOps (ops : List Op) (s : AppState) : AppState :=
  ops.foldl (fun acc op => op.apply acc) s

/-! ## Vocabulary of the statements -/

/-- A user record whose username and password are both equal to the given pair. -/
def Matches (username password : String) (u : User) : Prop :=
  u.username = username ∧ u.password = password

/-- Every collection of `a` is a prefix of the same collection of `b`. -/
def Document.Extends (a b : Document) : Prop :=
  a.users <+: b.users ∧ a.grades <+: b.grades ∧ a.classes <+: b.classes ∧
    a.learners <+: b.learners ∧ a.tasks <+: b.tasks ∧ a.annotations <+: b.annotations

/-- The state in which a gesture made of a pointer-down at `p0` and pointer-moves at `ps`
over the same canvas is ended at clock value `now`. -/
def gesture (canvas : Option Rect) (p0 : MouseEvent) (ps : List MouseEvent) (now : Nat)
    (s : AppState) : AppState :=
  endDraw now (ps.foldl (fun acc p => drawing canvas p acc) (startDraw canvas p0 s))

/-- A state whose second and third user records both match the typed pair b/y. -/
def twoMatches : AppState :=
  { initialState none with
    db := { emptyDb with
      users := [{ id := 1, username := "a", password := "x" },
        { id := 2, username := "b", password := "y" }, { id := 3, username := "b", password := "y" }] },
    usernameInput := "b",
    passwordInput := "y" }

/-- A logged-in state with task `t` selected and nothing drawn yet. -/
def withTask (t : Nat) : AppState :=
  { initialState (some initial) with
    db := initial,
    user := some { id := 1, username := "Dylan", password := "54852" },
    selectedTaskId := some t }

/-- The state reached from the seeded state by `createTaskForLearner` called at clock value
1700000000000 and the `onload` of its file read: the new task is in `db.tasks` and is the
selected task. -/
def taskSelected : AppState :=
  onload 0 "data:text/plain;base64,QQ==" "2023-11-14T22:13:20.000Z"
    (createTaskForLearner 1700000000000 9 "essay" (loadDB none (initialState none)))

/-- The path (10,10), (20,10), (20,20). -/
def samplePath : List Point :=
  [{ x := 10, y := 10 }, { x := 20, y := 10 }, { x := 20, y := 20 }]

/-- Pointer positions whose surface-local points, for a canvas at (5, 5), are (20,10), (20,20). -/
def sampleMoves : List MouseEvent :=
  [{ clientX := 25, clientY := 15 }, { clientX := 25, clientY := 25 }]

/-- The state once `loadDB` has seeded an empty store. -/
def seeded : AppState :=
  loadDB none (initialState none)

/-- Creations at clock values 1 to 5; the two file reads complete in the opposite order. -/
def sampleOps : List Op :=
  [Op.createGrade 1 "Grade 7", Op.createClass 2 1 "7A", Op.createTaskForLearner 3 9 "essay",
    Op.createTaskForLearner 4 9 "poem", Op.onload 1 "data:,b" "t1", Op.onload 0 "data:,a" "t2",
    Op.saveAnnotation 5 4 [{ x := 1, y := 2 }]]

/-- A session on the rendered UI: log in as the seeded user, then draw a stroke. -/
def sampleSession : List UIEvent :=
  [UIEvent.usernameChange "Dylan", UIEvent.passwordChange "54852", UIEvent.submit,
    UIEvent.mouseDown (some { left := 5, top := 5 }) { clientX := 15, clientY := 15 },
    UIEvent.mouseMove (some { left := 5, top := 5 }) { clientX := 25, clientY := 15 },
    UIEvent.mouseUp 99, UIEvent.mouseLeave 100]

/-! ## Helper lemmas -/

theorem find?_first_match {α : Type} (p : α → Bool) (l : List α) (h : ∃ a ∈ l, p a = true) :
    ∃ pre a post, l = pre ++ a :: post ∧ p a = true ∧ (∀ b ∈ pre, p b = false) ∧
      l.find? p = some a := by
  induction l with
  | nil => simp at h
  | cons x xs ih =>
    by_cases hx : p x = true
    · exact ⟨[], x, xs, rfl, hx, by simp, by simp [List.find?, hx]⟩
    · have hx' : p x = false := by simpa using hx
      have h' : ∃ a ∈ xs, p a = true := by
        obtain ⟨a, ha, hpa⟩ := h
        rcases List.mem_cons.mp ha with rfl | ha
        · exact absurd hpa hx
        · exact ⟨a, ha, hpa⟩
      obtain ⟨pre, a, post, hl, hpa, hpre, hfind⟩ := ih h'
      refine ⟨x :: pre, a, post, by simp [hl], hpa, ?_, by simp [List.find?, hx', hfind]⟩
      intro b hb
      rcases List.mem_cons.mp hb with rfl | hb
      · exact hx'
      · exact hpre b hb

theorem matches_iff (username password : String) (u : User) :
    (u.username == username && u.password == password) = true ↔ Matches username password u := by
  simp [Matches]

/-! ## C1: login -/

/-- C1: `handleLogin` sets the session user to the first record of `db.users`, in insertion
order, whose username and password both equal the submitted pair, when there is one; when
there is none it leaves the session user as it was and reports "Invalid credentials".  On
the seed document, Dylan/54852 logs in as the seeded user and Dylan/wrong is rejected with
the session left logged out. -/
theorem handleLogin_first_match_or_failure (s : AppState) :
    ((∃ u ∈ s.db.users, Matches s.usernameInput s.passwordInput u) →
      ∃ pre u post, s.db.users = pre ++ u :: post ∧ Matches s.usernameInput s.passwordInput u ∧
        (∀ v ∈ pre, ¬ Matches s.usernameInput s.passwordInput v) ∧
        (handleLogin s).user = some u ∧ (handleLogin s).alerts = s.alerts) ∧
    ((∀ u ∈ s.db.users, ¬ Matches s.usernameInput s.passwordInput u) →
      (handleLogin s).user = s.user ∧
        (handleLogin s).alerts = s.alerts ++ ["Invalid credentials"]) ∧
    (handleLogin { s with
      db := initial, user := none, usernameInput := "Dylan", passwordInput := "54852" }).user
      = some { id := 1, username := "Dylan", password := "54852" } ∧
    (handleLogin { s with
      db := initial, user := none, usernameInput := "Dylan", passwordInput := "wrong" }).user = none ∧
    (handleLogin { s with
      db := initial, user := none, usernameInput := "Dylan", passwordInput := "wrong" }).alerts
      = s.alerts ++ ["Invalid credentials"] := by
  refine ⟨?_, ?_, ?_, ?_, ?_⟩
  · intro h
    have h' : ∃ u ∈ s.db.users,
        (u.username == s.usernameInput && u.password == s.passwordInput) = true := by
      obtain ⟨u, hu, hm⟩ := h
      exact ⟨u, hu, (matches_iff _ _ u).mpr hm⟩
    obtain ⟨pre, u, post, hl, hpu, hpre, hfind⟩ := find?_first_match _ _ h'
    refine ⟨pre, u, post, hl, (matches_iff _ _ u).mp hpu, ?_, ?_, ?_⟩
    · intro v hv hm
      have := hpre v hv
      rw [(matches_iff _ _ v).mpr hm] at this
      exact Bool.noConfusion this
    · simp only [handleLogin, hfind]
    · simp only [handleLogin, hfind]
  · intro h
    have hfind : s.db.users.find?
        (fun u => u.username == s.usernameInput && u.password == s.passwordInput) = none := by
      rw [List.find?_eq_none]
      intro u hu hp
      exact h u hu ((matches_iff _ _ u).mp hp)
    simp only [handleLogin, hfind, and_self]
  · simp [handleLogin, initial, List.find?]
  · simp [handleLogin, initial, List.find?]
  · simp [handleLogin, initial, List.find?]

/-- Witness for C1: with two matching records the earlier one is logged in. -/
theorem handleLogin_first_match_or_failure_witness :
    (handleLogin twoMatches).user = some { id := 2, username := "b", password := "y" } := by
  obtain ⟨pre, u, post, hl, hm, hpre, hu, _⟩ :=
    (handleLogin_first_match_or_failure twoMatches).1
      ⟨{ id := 2, username := "b", password := "y" }, by simp [twoMatches], by simp [Matches, twoMatches]⟩
  rw [hu]
  simp [handleLogin, List.find?, twoMatches, initialState] at hu
  rw [← hu]

/-! ## C2, C3, C9: the drawing gesture -/

theorem drawing_step (rect : Rect) (p : MouseEvent) (s : AppState) (hd : s.isDrawing = true) :
    (drawing (some rect) p s).isDrawing = true ∧
      (drawing (some rect) p s).currentPath = s.currentPath ++ [localPoint rect p] ∧
      (drawing (some rect) p s).db = s.db ∧
      (drawing (some rect) p s).store = s.store ∧
      (drawing (some rect) p s).selectedTaskId = s.selectedTaskId := by
  simp [drawing, hd]

theorem foldl_drawing (rect : Rect) (ps : List MouseEvent) (s : AppState)
    (hd : s.isDrawing = true) :
    (ps.foldl (fun acc p => drawing (some rect) p acc) s).currentPath
        = s.currentPath ++ ps.map (localPoint rect) ∧
      (ps.foldl (fun acc p => drawing (some rect) p acc) s).db = s.db ∧
      (ps.foldl (fun acc p => drawing (some rect) p acc) s).store = s.store ∧
      (ps.foldl (fun acc p => drawing (some rect) p acc) s).selectedTaskId = s.selectedTaskId := by
  induction ps generalizing s with
  | nil => simp
  | cons p ps ih =>
    obtain ⟨g0, g1, g2, g3, g4⟩ := drawing_step rect p s hd
    obtain ⟨h1, h2, h3, h4⟩ := ih (drawing (some rect) p s) g0
    simp only [List.foldl_cons, h1, h2, h3, h4, g1, g2, g3, g4]
    simp

theorem endDraw_of_idle (s : AppState) (now : Nat) (h1 : s.currentPath = [])
    (h2 : s.isDrawing = false) : endDraw now s = s := by
  cases s
  simp_all [endDraw]

/-- C2: with a canvas bound at `rect` and a task `t` selected (`selectedTaskId` holds `t`,
a task id, that is a `Date.now()` reading taken by `createTaskForLearner`, which is
positive for a clock past the epoch), the gesture pointer-down at `p0`, pointer-moves at
`ps`, then `endDraw` appends exactly one annotation, whose id is the clock value, whose
`taskId` is `t` and whose path is the surface-local points of `p0 :: ps` in order; nothing
else of the document changes. -/
theorem gesture_commits_path (s : AppState) (rect : Rect) (p0 : MouseEvent)
    (ps : List MouseEvent) (now t : Nat) (ht : s.selectedTaskId = some t) (ht0 : 0 < t) :
    (gesture (some rect) p0 ps now s).db = { s.db with
      annotations := s.db.annotations ++
        [{ id := now, taskId := t, path := (p0 :: ps).map (localPoint rect) }] } := by
  have hs : (startDraw (some rect) p0 s).isDrawing = true := by simp [startDraw]
  obtain ⟨h1, h2, _, h4⟩ := foldl_drawing rect ps (startDraw (some rect) p0 s) hs
  have h4' : (ps.foldl (fun acc p => drawing (some rect) p acc)
      (startDraw (some rect) p0 s)).selectedTaskId = some t := by
    rw [h4]; simpa [startDraw] using ht
  have h1' : (ps.foldl (fun acc p => drawing (some rect) p acc)
      (startDraw (some rect) p0 s)).currentPath = (p0 :: ps).map (localPoint rect) := by
    rw [h1]; simp [startDraw]
  have h2' : (ps.foldl (fun acc p => drawing (some rect) p acc)
      (startDraw (some rect) p0 s)).db = s.db := by
    rw [h2]; simp [startDraw]
  have hne : t ≠ 0 := Nat.pos_iff_ne_zero.mp ht0
  simp only [gesture, endDraw, h4', h1', truthy]
  simp [hne, saveAnnotation, setDb, h2']

/-- Witness for C2: after a task has been created at clock value 1700000000000, which
selects it, a canvas at (5, 5) and the pointer at (15,15), (25,15), (25,25) commit exactly
the annotation with path (10,10), (20,10), (20,20) linked to that task. -/
theorem gesture_commits_path_witness :
    taskSelected.db.tasks.map (fun r => r.id) = [1700000000000] ∧
    taskSelected.selectedTaskId = some 1700000000000 ∧
    (gesture (some { left := 5, top := 5 }) { clientX := 15, clientY := 15 } sampleMoves 99
        taskSelected).db.annotations
      = [{ id := 99, taskId := 1700000000000, path := samplePath }] := by
  have hsel : taskSelected.selectedTaskId = some 1700000000000 := by
    simp [taskSelected, onload, createTaskForLearner, taskLoaded, setDb, loadDB, initialState]
  refine ⟨?_, hsel, ?_⟩
  · simp [taskSelected, onload, createTaskForLearner, taskLoaded, setDb, loadDB, initialState,
      initial]
  · rw [gesture_commits_path taskSelected { left := 5, top := 5 }
      { clientX := 15, clientY := 15 } sampleMoves 99 1700000000000 hsel (by norm_num)]
    simp [taskSelected, onload, createTaskForLearner, taskLoaded, setDb, loadDB, initialState,
      initial, sampleMoves, samplePath, localPoint]

/-- C3: with `selectedTaskId` null, `endDraw` leaves the document (and the store)
unchanged and reports nothing; in every case it leaves the in-progress path empty and the
drawing flag false. -/
theorem endDraw_no_task_commits_nothing (s : AppState) (now : Nat) :
    (s.selectedTaskId = none →
      (endDraw now s).db = s.db ∧ (endDraw now s).store = s.store ∧
        (endDraw now s).alerts = s.alerts) ∧
    (endDraw now s).currentPath = [] ∧ (endDraw now s).isDrawing = false := by
  refine ⟨?_, ?_, ?_⟩
  · intro h
    simp [endDraw, h, truthy]
  · simp [endDraw]
  · unfold endDraw
    split_ifs <;> simp [setDb, saveAnnotation]

/-- Witness for C3: a three-point path drawn with no task selected is discarded. -/
theorem endDraw_no_task_commits_nothing_witness :
    (endDraw 99 { initialState none with isDrawing := true, currentPath := samplePath }).db
      = emptyDb :=
  ((endDraw_no_task_commits_nothing
    { initialState none with isDrawing := true, currentPath := samplePath } 99).1 rfl).1

/-- C9: `endDraw` applied twice in a row gives the state `endDraw` applied once gives:
the second call finds the in-progress path empty and commits nothing. -/
theorem endDraw_twice (s : AppState) (now1 now2 : Nat) :
    endDraw now2 (endDraw now1 s) = endDraw now1 s ∧
    (endDraw now2 (endDraw now1 s)).db = (endDraw now1 s).db ∧
    (endDraw now2 (endDraw now1 s)).currentPath = (endDraw now1 s).currentPath ∧
    (endDraw now2 (endDraw now1 s)).isDrawing = (endDraw now1 s).isDrawing := by
  have h : endDraw now2 (endDraw now1 s) = endDraw now1 s := by
    apply endDraw_of_idle
    · simp [endDraw]
    · unfold endDraw
      split_ifs <;> simp [setDb, saveAnnotation]
  exact ⟨h, by rw [h], by rw [h], by rw [h]⟩

/-! ## C4: logout -/

/-- C4 (amended): `handleLogout` sets the session user to null and changes no other
cell: the selected grade, class, learner and task stay as they were. -/
theorem handleLogout_clears_user_only (s : AppState) :
    (handleLogout s).user = none ∧
    (handleLogout s).selectedGradeId = s.selectedGradeId ∧
    (handleLogout s).selectedClassId = s.selectedClassId ∧
    (handleLogout s).selectedLearnerId = s.selectedLearnerId ∧
    (handleLogout s).selectedTaskId = s.selectedTaskId ∧
    handleLogout s = { s with user := none } := by
  simp [handleLogout]

/-- Counterexample to C4 as stated: after a task with id 7 has been created (which selects
it), logging out leaves task 7 selected. -/
theorem handleLogout_keeps_selected_task :
    (handleLogout (taskLoaded 7 3 "essay" "data:text/plain;base64,QQ==" "2024-01-01T00:00:00.000Z"
      (withTask 0))).selectedTaskId = some 7 := by
  simp [handleLogout, taskLoaded, setDb]

/-! ## C5, C6: creation appends -/

/-- C5: after each of `createGrade`, `createClass`, `createLearner`, the completion of
`createTaskForLearner`, `saveAnnotation` and `endDraw`, every collection of the prior
document is a prefix of the same collection of the resulting document. -/
theorem mutations_only_append (s : AppState) :
    (∀ now name, s.db.Extends (createGrade now name s).2.db) ∧
    (∀ now gradeId name, s.db.Extends (createClass now gradeId name s).2.db) ∧
    (∀ now classId name, s.db.Extends (createLearner now classId name s).2.db) ∧
    (∀ now learnerId title, s.db.Extends (createTaskForLearner now learnerId title s).db) ∧
    (∀ id learnerId title fileUrl createdAt,
      s.db.Extends (taskLoaded id learnerId title fileUrl createdAt s).db) ∧
    (∀ k fileUrl createdAt, s.db.Extends (onload k fileUrl createdAt s).db) ∧
    (∀ now taskId path, s.db.Extends ( saveAnnotation now taskId path s).db) ∧
    (∀ now, s.db.Extends (endDraw now s).db) := by
  refine ⟨?_, ?_, ?_, ?_, ?_, ?_, ?_, ?_⟩
  · intro now name
    simp [Document.Extends, createGrade, setDb]
  · intro now gradeId name
    simp [Document.Extends, createClass, setDb]
  · intro now classId name
    simp [Document.Extends, createLearner, setDb]
  · intro now learnerId title
    simp [Document.Extends, createTaskForLearner]
  · intro id learnerId title fileUrl createdAt
    simp [Document.Extends, taskLoaded, setDb]
  · intro k fileUrl createdAt
    unfold onload
    split <;> simp [Document.Extends, taskLoaded, setDb]
  · intro now taskId path
    simp [Document.Extends, saveAnnotation, setDb]
  · intro now
    unfold endDraw
    split_ifs <;> simp [Document.Extends, saveAnnotation, setDb]

/-- C6: for every document, `gradeId` and `name`, `createClass` reports nothing, returns
the id it read from the clock, and appends exactly one class record carrying that id, the
given `gradeId` and the given `name`, whether or not a grade with that id exists; after
`createGrade "Grade 7"`, `createClass` with the returned id and "7A" appends a class whose
`gradeId` is the id of the grade just appended. -/
theorem createClass_appends_unchecked (s : AppState) (now gradeId : Nat) (name : String) :
    (createClass now gradeId name s).1 = now ∧
    (createClass now gradeId name s).2.db = { s.db with
      classes := s.db.classes ++ [{ id := now, gradeId := gradeId, name := name }] } ∧
    (createClass now gradeId name s).2.alerts = s.alerts ∧
    (∀ now1 : Nat,
      (createGrade now1 "Grade 7" s).2.db.grades
          = s.db.grades ++ [{ id := (createGrade now1 "Grade 7" s).1, name := "Grade 7" }] ∧
      (createClass now (createGrade now1 "Grade 7" s).1 "7A" (createGrade now1 "Grade 7" s).2).2.db.classes
          = s.db.classes ++ [{ id := now, gradeId := (createGrade now1 "Grade 7" s).1, name := "7A" }]) := by
  refine ⟨rfl, ?_, ?_, ?_⟩
  · simp [createClass, setDb]
  · simp [createClass, setDb]
  · intro now1
    simp [createClass, createGrade, setDb]

/-! ## C7: load or seed -/

/-- C7: when `getItem` returns nothing, `loadDB` writes the seed document (one user with
id 1, username Dylan, password 54852, and five empty collections) to the store and makes
it the in-memory document; when `getItem` returns a document, that document becomes the
in-memory document and is what the store holds.  The same holds of the first render as a
whole, where the persist effect has written the empty default document in between. -/
theorem loadDB_seeds_or_rehydrates (s : AppState) :
    (loadDB none s).db = initial ∧ (loadDB none s).store = some initial ∧
    initial = { users := [{ id := 1, username := "Dylan", password := "54852" }],
                grades := [], classes := [], learners := [], tasks := [], annotations := [] } ∧
    (∀ d : Document, (loadDB (some d) s).db = d ∧ (loadDB (some d) s).store = some d) ∧
    (mount none).db = initial ∧ (mount none).store = some initial ∧
    (∀ d : Document, (mount (some d)).db = d ∧ (mount (some d)).store = some d) := by
  refine ⟨?_, ?_, rfl, ?_, ?_, ?_, ?_⟩
  · simp [loadDB, setDb]
  · simp [loadDB, setDb]
  · intro d
    simp [loadDB, setDb]
  · simp [mount, persist, loadDB, setDb, initialState]
  · simp [mount, persist, loadDB, setDb, initialState]
  · intro d
    simp [mount, persist, loadDB, setDb, initialState]

/-! ## C8: ids under a strictly increasing clock -/

theorem perm_cons_eraseIdx {α : Type} (l : List α) (k : Nat) (r : α) (h : l.get? k = some r) :
    l.Perm (r :: l.eraseIdx k) := by
  induction l generalizing k with
  | nil => simp at h
  | cons x xs ih =>
    cases k with
    | zero =>
      simp at h
      subst h
      simp
    | succ k =>
      have := ih k (by simpa using h)
      simp only [List.eraseIdx_cons_succ]
      exact (List.Perm.cons x this).trans (List.Perm.swap r x _)

theorem filterMap_sublist_of_le {α β : Type} (f g : α → Option β) (l : List α)
    (h : ∀ a b, f a = some b → g a = some b) : (l.filterMap f).Sublist (l.filterMap g) := by
  induction l with
  | nil => simp
  | cons x xs ih =>
    cases hf : f x with
    | none =>
      cases hg : g x with
      | none => simpa [List.filterMap_cons, hf, hg] using ih
      | some c => simpa [List.filterMap_cons, hf, hg] using List.Sublist.cons c ih
    | some b =>
      have hg := h x b hf
      simpa [List.filterMap_cons, hf, hg] using ih

theorem apply_ids (op : Op) (s : AppState) :
    (op.apply s).db.users = s.db.users ∧
    (op.apply s).db.grades.map (fun r => r.id) = s.db.grades.map (fun r => r.id) ++ op.gradeClock.toList ∧
    (op.apply s).db.classes.map (fun r => r.id) = s.db.classes.map (fun r => r.id) ++ op.classClock.toList ∧
    (op.apply s).db.learners.map (fun r => r.id)
      = s.db.learners.map (fun r => r.id) ++ op.learnerClock.toList ∧
    (op.apply s).db.annotations.map (fun r => r.id)
      = s.db.annotations.map (fun r => r.id) ++ op.annotationClock.toList ∧
    ((op.apply s).db.tasks.map (fun r => r.id) ++ (op.apply s).readers.map (fun r => r.id)).Perm
      ((s.db.tasks.map (fun r => r.id) ++ s.readers.map (fun r => r.id)) ++ op.taskClock.toList) := by
  cases op with
  | createGrade now name =>
    simp [Op.apply, createGrade, setDb, Op.gradeClock, Op.classClock, Op.learnerClock,
      Op.annotationClock, Op.taskClock]
  | createClass now gradeId name =>
    simp [Op.apply, createClass, setDb, Op.gradeClock, Op.classClock, Op.learnerClock,
      Op.annotationClock, Op.taskClock]
  | createLearner now classId name =>
    simp [Op.apply, createLearner, setDb, Op.gradeClock, Op.classClock, Op.learnerClock,
      Op.annotationClock, Op.taskClock]
  | createTaskForLearner now learnerId title =>
    simp [Op.apply, createTaskForLearner, Op.gradeClock, Op.classClock, Op.learnerClock,
      Op.annotationClock, Op.taskClock]
  | saveAnnotation now taskId path =>
    simp [Op.apply, saveAnnotation, setDb, Op.gradeClock, Op.classClock, Op.learnerClock,
      Op.annotationClock, Op.taskClock]
  | onload k fileUrl createdAt =>
    simp only [Op.apply, onload, Op.gradeClock, Op.classClock, Op.learnerClock,
      Op.annotationClock, Op.taskClock, Option.toList, List.append_nil]
    cases h : s.readers.get? k with
    | none => simp
    | some r =>
      simp only [taskLoaded, setDb, List.map_append, List.map_cons, List.map_nil, true_and]
      have hp := (perm_cons_eraseIdx s.readers k r h).map (fun r => r.id)
      simp only [List.map_cons] at hp
      refine List.Perm.trans ?_ (List.Perm.append_left _ hp.symm)
      simp only [List.append_assoc, List.singleton_append]
      exact List.Perm.refl _

theorem runOps_ids (ops : List Op) (s : AppState) :
    (runOps ops s).db.users = s.db.users ∧
    (runOps ops s).db.grades.map (fun r => r.id)
      = s.db.grades.map (fun r => r.id) ++ ops.filterMap Op.gradeClock ∧
    (runOps ops s).db.classes.map (fun r => r.id)
      = s.db.classes.map (fun r => r.id) ++ ops.filterMap Op.classClock ∧
    (runOps ops s).db.learners.map (fun r => r.id)
      = s.db.learners.map (fun r => r.id) ++ ops.filterMap Op.learnerClock ∧
    (runOps ops s).db.annotations.map (fun r => r.id)
      = s.db.annotations.map (fun r => r.id) ++ ops.filterMap Op.annotationClock ∧
    ((runOps ops s).db.tasks.map (fun r => r.id) ++ (runOps ops s).readers.map (fun r => r.id)).Perm
      ((s.db.tasks.map (fun r => r.id) ++ s.readers.map (fun r => r.id))
        ++ ops.filterMap Op.taskClock) := by
  induction ops generalizing s with
  | nil => simp [runOps]
  | cons op ops ih =>
    obtain ⟨a0, a1, a2, a3, a4, a5⟩ := apply_ids op s
    obtain ⟨b0, b1, b2, b3, b4, b5⟩ := ih (op.apply s)
    have hrun : runOps (op :: ops) s = runOps ops (op.apply s) := rfl
    rw [hrun]
    refine ⟨by rw [b0, a0], ?_, ?_, ?_, ?_, ?_⟩
    · rw [b1, a1]; cases h : op.gradeClock <;> simp [List.filterMap_cons, h]
    · rw [b2, a2]; cases h : op.classClock <;> simp [List.filterMap_cons, h]
    · rw [b3, a3]; cases h : op.learnerClock <;> simp [List.filterMap_cons, h]
    · rw [b4, a4]; cases h : op.annotationClock <;> simp [List.filterMap_cons, h]
    · refine b5.trans ?_
      have := List.Perm.append_right (ops.filterMap Op.taskClock) a5
      refine this.trans ?_
      cases h : op.taskClock <;> simp [List.filterMap_cons, h]

theorem clock_of_kind (op : Op) (b : Nat) :
    (op.gradeClock = some b → op.clock = some b) ∧ (op.classClock = some b → op.clock = some b) ∧
    (op.learnerClock = some b → op.clock = some b) ∧ (op.taskClock = some b → op.clock = some b) ∧
    (op.annotationClock = some b → op.clock = some b) := by
  cases op <;>
    simp [Op.gradeClock, Op.classClock, Op.learnerClock, Op.taskClock, Op.annotationClock, Op.clock]

/-- C8: starting from a state holding the seed document with no file read pending, run
any sequence of creation steps whose clock reads are strictly increasing.  Then the ids of
`grades`, `classes`, `learners` and `annotations` are, in order, exactly the clock values
read by the steps that created them, the ids of the tasks appended so far together with
those of the reads still pending are exactly the clock values read by the
`createTaskForLearner` calls, and within each collection the ids are pairwise distinct. -/
theorem creation_ids_are_clock_reads_and_distinct (s0 : AppState) (ops : List Op)
    (hdb : s0.db = initial) (hreaders : s0.readers = [])
    (hclock : (ops.filterMap Op.clock).Chain' (fun a b => a < b)) :
    (runOps ops s0).db.grades.map (fun r => r.id) = ops.filterMap Op.gradeClock ∧
    (runOps ops s0).db.classes.map (fun r => r.id) = ops.filterMap Op.classClock ∧
    (runOps ops s0).db.learners.map (fun r => r.id) = ops.filterMap Op.learnerClock ∧
    (runOps ops s0).db.annotations.map (fun r => r.id) = ops.filterMap Op.annotationClock ∧
    ((runOps ops s0).db.tasks.map (fun r => r.id) ++ (runOps ops s0).readers.map (fun r => r.id)).Perm
      (ops.filterMap Op.taskClock) ∧
    ((runOps ops s0).db.users.map (fun r => r.id)).Nodup ∧
    ((runOps ops s0).db.grades.map (fun r => r.id)).Nodup ∧
    ((runOps ops s0).db.classes.map (fun r => r.id)).Nodup ∧
    ((runOps ops s0).db.learners.map (fun r => r.id)).Nodup ∧
    ((runOps ops s0).db.tasks.map (fun r => r.id)).Nodup ∧
    ((runOps ops s0).db.annotations.map (fun r => r.id)).Nodup := by
  obtain ⟨b0, b1, b2, b3, b4, b5⟩ := runOps_ids ops s0
  simp only [hdb, hreaders, initial, List.map_nil, List.nil_append] at b0 b1 b2 b3 b4 b5
  have hnd : (ops.filterMap Op.clock).Nodup :=
    (List.chain'_iff_pairwise.mp hclock).imp (fun h => Nat.ne_of_lt h)
  have sub : ∀ f : Op → Option Nat, (∀ op b, f op = some b → op.clock = some b) →
      (ops.filterMap f).Nodup :=
    fun f hf => List.Nodup.sublist (filterMap_sublist_of_le f Op.clock ops hf) hnd
  have n1 := sub Op.gradeClock (fun op b => (clock_of_kind op b).1)
  have n2 := sub Op.classClock (fun op b => (clock_of_kind op b).2.1)
  have n3 := sub Op.learnerClock (fun op b => (clock_of_kind op b).2.2.1)
  have n4 := sub Op.taskClock (fun op b => (clock_of_kind op b).2.2.2.1)
  have n5 := sub Op.annotationClock (fun op b => (clock_of_kind op b).2.2.2.2)
  refine ⟨b1, b2, b3, b4, b5, ?_, ?_, ?_, ?_, ?_, ?_⟩
  · rw [b0]; simp
  · rw [b1]; exact n1
  · rw [b2]; exact n2
  · rw [b3]; exact n3
  · exact List.Nodup.of_append_left ((List.Perm.nodup_iff b5).mpr n4)
  · rw [b4]; exact n5

/-- Witness for C8: seven steps at clock values 1 to 5 on the seeded state; the two tasks
are appended in the opposite order of their creation and carry the ids 4 and 3. -/
theorem creation_ids_are_clock_reads_and_distinct_witness :
    (runOps sampleOps seeded).db.tasks.map (fun r => r.id) = [4, 3] ∧
    ((runOps sampleOps seeded).db.tasks.map (fun r => r.id)).Nodup ∧
    (runOps sampleOps seeded).db.grades.map (fun r => r.id) = [1] ∧
    (runOps sampleOps seeded).db.annotations.map (fun r => r.id) = [5] := by
  have h := creation_ids_are_clock_reads_and_distinct seeded sampleOps rfl rfl
    (by simp [sampleOps, Op.clock])
  refine ⟨?_, h.2.2.2.2.2.2.2.2.2.1, ?_, ?_⟩
  · simp [runOps, sampleOps, seeded, Op.apply, createGrade, createClass, createTaskForLearner,
      onload, taskLoaded, saveAnnotation, setDb, loadDB, initialState, initial]
  · rw [h.1]; simp [sampleOps, Op.gradeClock]
  · rw [h.2.2.2.1]; simp [sampleOps, Op.annotationClock]

/-! ## C10: no UI event selects a task or saves an annotation -/

theorem step_keeps_no_task (ev : UIEvent) (s : AppState) (h : s.selectedTaskId = none) :
    (step ev s).selectedTaskId = none ∧ (step ev s).db = s.db := by
  cases ev with
  | submit => simp only [step, handleLogin]; split <;> simp [h]
  | usernameChange v => simp [step, h]
  | passwordChange v => simp [step, h]
  | logout => simp [step, handleLogout, h]
  | toggleTheme => simp [step, h]
  | colourChange v => simp [step, h]
  | mouseDown canvas e => cases canvas <;> simp [step, startDraw, h]
  | mouseMove canvas e =>
    cases canvas with
    | none => simp [step, drawing, h]
    | some rect => simp only [step, drawing]; split_ifs <;> simp [h]
  | mouseUp now => simp [step, endDraw, h, truthy]
  | mouseLeave now => simp [step, endDraw, h, truthy]

theorem runUI_keeps_no_task (evs : List UIEvent) (s : AppState) (h : s.selectedTaskId = none) :
    (runUI evs s).selectedTaskId = none ∧ (runUI evs s).db = s.db := by
  induction evs generalizing s with
  | nil => exact ⟨h, rfl⟩
  | cons ev evs ih =>
    obtain ⟨h1, h2⟩ := step_keeps_no_task ev s h
    obtain ⟨h3, h4⟩ := ih (step ev s) h1
    have hrun : runUI (ev :: evs) s = runUI evs (step ev s) := rfl
    rw [hrun]
    exact ⟨h3, h4.trans h2⟩

theorem minimal_step_keeps_no_task (ev : UIEvent) (s s' : AppState)
    (h : s.selectedTaskId = none) (hs : Minimal.step ev s = some s') :
    s'.selectedTaskId = none ∧ s'.db = s.db := by
  cases ev with
  | submit =>
    simp only [Minimal.step, Minimal.handleLogin, Option.some.injEq] at hs
    subst hs
    split <;> simp [h]
  | usernameChange v => simp only [Minimal.step, Option.some.injEq] at hs; subst hs; simp [h]
  | passwordChange v => simp only [Minimal.step, Option.some.injEq] at hs; subst hs; simp [h]
  | logout => simp only [Minimal.step, Option.some.injEq] at hs; subst hs; simp [handleLogout, h]
  | toggleTheme => simp only [Minimal.step, Option.some.injEq] at hs; subst hs; simp [h]
  | colourChange v => simp only [Minimal.step, Option.some.injEq] at hs; subst hs; simp [h]
  | mouseDown canvas e =>
    simp only [Minimal.step, Option.some.injEq] at hs
    subst hs
    cases canvas <;> simp [Minimal.startDraw, h]
  | mouseMove canvas e =>
    simp only [Minimal.step, Minimal.drawing] at hs
    split_ifs at hs
    · simp only [Option.some.injEq] at hs; subst hs; exact ⟨h, rfl⟩
    · cases canvas with
      | none => simp only [Option.some.injEq] at hs; subst hs; exact ⟨h, rfl⟩
      | some rect =>
        simp only at hs
        cases hl : s.currentPath.getLast? with
        | none => simp [hl] at hs
        | some p =>
          simp only [hl, Option.some.injEq] at hs
          subst hs
          exact ⟨h, rfl⟩
  | mouseUp now =>
    simp only [Minimal.step, Option.some.injEq] at hs; subst hs; simp [endDraw, h, truthy]
  | mouseLeave now =>
    simp only [Minimal.step, Option.some.injEq] at hs; subst hs; simp [endDraw, h, truthy]

theorem minimal_runUI_keeps_no_task (evs : List UIEvent) (s s' : AppState)
    (h : s.selectedTaskId = none) (hs : Minimal.runUI evs s = some s') :
    s'.selectedTaskId = none ∧ s'.db = s.db := by
  induction evs generalizing s with
  | nil =>
    simp only [Minimal.runUI, Option.some.injEq] at hs
    subst hs
    exact ⟨h, rfl⟩
  | cons ev evs ih =>
    simp only [Minimal.runUI] at hs
    cases hstep : Minimal.step ev s with
    | none => simp [hstep] at hs
    | some s1 =>
      rw [hstep] at hs
      obtain ⟨h1, h2⟩ := minimal_step_keeps_no_task ev s s1 h hstep
      obtain ⟨h3, h4⟩ := ih s1 h1 hs
      exact ⟨h3, h4.trans h2⟩

theorem loadDB_keeps_no_task (stored : Option Document) (s : AppState) :
    (loadDB stored s).selectedTaskId = s.selectedTaskId ∧
      (loadDB stored s).db = stored.getD initial := by
  cases stored <;> simp [loadDB, setDb]

/-- C10: from the first render, let any UI events `evs1` be handled, then `loadDB` complete
with the document `stored` read from the store (the seed when none was stored), then any
UI events `evs2` be handled.  In both `src/MarkMyWords.jsx` and its sibling, no task is
selected before or after the load, the document before the load is the empty one, and
after the load the document, hence `db.annotations`, is the loaded one: no sequence
of UI events appends an annotation. -/
theorem ui_events_never_save (store stored : Option Document) (evs1 evs2 : List UIEvent) :
    ((runUI evs1 (initialState store)).selectedTaskId = none ∧
      (runUI evs1 (initialState store)).db.annotations = [] ∧
      (runUI evs2 (loadDB stored (runUI evs1 (initialState store)))).selectedTaskId = none ∧
      (runUI evs2 (loadDB stored (runUI evs1 (initialState store)))).db.annotations
        = (stored.getD initial).annotations) ∧
    (∀ s1 s2, Minimal.runUI evs1 (initialState store) = some s1 →
      Minimal.runUI evs2 (loadDB stored s1) = some s2 →
      s1.selectedTaskId = none ∧ s1.db.annotations = [] ∧
        s2.selectedTaskId = none ∧ s2.db.annotations = (stored.getD initial).annotations) := by
  constructor
  · obtain ⟨h1, h2⟩ := runUI_keeps_no_task evs1 (initialState store) rfl
    obtain ⟨l1, l2⟩ := loadDB_keeps_no_task stored (runUI evs1 (initialState store))
    obtain ⟨h3, h4⟩ := runUI_keeps_no_task evs2 _ (l1.trans h1)
    exact ⟨h1, by rw [h2]; rfl, h3, by rw [h4, l2]⟩
  · intro s1 s2 e1 e2
    obtain ⟨h1, h2⟩ := minimal_runUI_keeps_no_task evs1 (initialState store) s1 rfl e1
    obtain ⟨l1, l2⟩ := loadDB_keeps_no_task stored s1
    obtain ⟨h3, h4⟩ := minimal_runUI_keeps_no_task evs2 _ s2 (l1.trans h1) e2
    exact ⟨h1, by rw [h2]; rfl, h3, by rw [h4, l2]⟩

/-- Witness for C10: on the seeded store, logging in as Dylan and drawing a stroke ends
the sibling's run in a state, and that state has no annotation. -/
theorem ui_events_never_save_witness :
    (∃ s2, Minimal.runUI sampleSession (loadDB none (initialState none)) = some s2) ∧
    (∀ s2, Minimal.runUI sampleSession (loadDB none (initialState none)) = some s2 →
      s2.db.annotations = []) ∧
    (runUI sampleSession (loadDB none (initialState none))).user
      = some { id := 1, username := "Dylan", password := "54852" } ∧
    (runUI sampleSession (loadDB none (initialState none))).db.annotations = [] := by
  have h := ui_events_never_save none none [] sampleSession
  refine ⟨?_, ?_, ?_, ?_⟩
  · simp [Minimal.runUI, sampleSession, Minimal.step, Minimal.handleLogin, Minimal.startDraw,
      Minimal.drawing, endDraw, truthy, loadDB, setDb, initialState, initial, List.find?]
  · intro s2 hs
    exact (h.2 (initialState none) s2 rfl hs).2.2.2
  · simp [runUI, sampleSession, step, handleLogin, startDraw, drawing, endDraw, truthy,
      loadDB, setDb, initialState, initial, List.find?]
  · exact h.1.2.2.2

end MarkMyWords
